import Mathlib

/-!
Verification of the channels node endpoint
(`packages/channels/src/node.ts`, function `createChannelsNode`).

The TypeScript code is embedded shallowly: the mutable `channel` record
becomes an explicit state value, `postMessage` calls and the
`onStatusUpdate` / `onEvent` callbacks are recorded as effect lists, and
the one JavaScript exception path (reading a property of `null` event
data) is recorded as a `threw` flag.  JavaScript values that can be a
string, `null` or `undefined` are modelled by `JsNullable`, since the
code distinguishes them under strict equality and truthiness.
-/

namespace Channels

/-- Connection lifecycle status (`ChannelStatus` in `types.ts`; the five
values are the ones the repository uses: the node sets `connecting`,
`connected`, `disconnected`, its `send` also tests `reconnecting`, and
consumers additionally observe `unhealthy`). -/
inductive ChannelStatus where
  | connecting
  | connected
  | reconnecting
  | disconnected
  | unhealthy
deriving DecidableEq, Repr, BEq

/-- A JavaScript value that is a string, `null` or `undefined`.  The code
compares such values with strict equality and tests them for truthiness,
and `null` and `undefined` behave differently under `===`, so both are
kept. -/
inductive JsNullable where
  | null
  | undefined
  | str (s : String)
deriving DecidableEq, Repr, BEq

/-- JavaScript truthiness of a string-or-null-or-undefined value: `null`,
`undefined` and the empty string are falsy. -/
def JsNullable.truthy : JsNullable → Bool
  | .str s => s != ""
  | _ => false

/-- JavaScript strict equality `===` on `JsNullable` values. -/
def jsEq : JsNullable → JsNullable → Bool
  | .str a, .str b => a == b
  | .null, .null => true
  | .undefined, .undefined => true
  | _, _ => false

/-- The payload slot of an envelope (`data` inside a protocol message):
absent (`undefined`, falsy), an object — whose `id` and `responseTo`
fields are the only ones the node reads or writes — or some other opaque
application value. -/
inductive MsgData where
  | undefined
  | obj (id : JsNullable) (responseTo : Option String)
  | payload (s : String)
deriving DecidableEq, Repr, BEq

/-- JavaScript truthiness of a payload: only an absent payload is falsy. -/
def MsgData.truthy : MsgData → Bool
  | .undefined => false
  | _ => true

/-- Reading `.id` off a payload, as in `data.data.id`: an object yields
its `id` field, any other value yields `undefined`.  The code only reads
`.id` after checking `data.data` is truthy, so the throwing case (reading
a property of `undefined`) is unreachable there. -/
def MsgData.getId : MsgData → JsNullable
  | .obj i _ => i
  | _ => .undefined

/-- The wire shape of an inbound protocol message (`ProtocolMsg` in
`types.ts`), with every field optional as arbitrary senders may omit any
of them.  `fromId` embeds the `from` field (a Lean keyword);
`connectionId` is `JsNullable` because `null` and `undefined` differ
under the strict comparison with `channel.id`. -/
structure WireMsg where
  domain : Option String
  fromId : Option String
  toId : Option String
  type : Option String
  connectionId : JsNullable
  id : Option String
  data : MsgData
deriving DecidableEq, Repr, BEq

/-- The `data` carried by an inbound `MessageEvent`: `null` (also
covering `undefined`; reading a property of it throws a TypeError), a
non-object primitive (every property reads as `undefined`), or a
protocol-shaped object. -/
inductive EventData where
  | null
  | prim
  | obj (m : WireMsg)
deriving DecidableEq, Repr, BEq

/-- An inbound `MessageEvent`: the browser guarantees `origin` is a
string; `source` is an opaque window reference or `null`, modelled as
`Option Nat`. -/
structure JsMessageEvent where
  origin : String
  source : Option Nat
  data : EventData
deriving DecidableEq, Repr, BEq

/-- The mutable connection record (`ChannelsNodeChannel`): the outbound
buffer of type/data pairs, the session id (`null` initially, later the
value read off the handshake-open payload), the pinned origin, the peer
sink reference, and the status. -/
structure ChannelsNodeChannel where
  buffer : List (String × MsgData)
  id : JsNullable
  origin : Option String
  source : Option Nat
  status : ChannelStatus
deriving DecidableEq, Repr, BEq

/-- The configuration the node is created with: its own logical id and
the peer id it connects to (`ChannelsNodeOptions`); the two callbacks are
modelled as recorded effects instead. -/
structure ChannelsNodeOptions where
  id : String
  connectTo : String
deriving DecidableEq, Repr, BEq

/-- The channel record as initialised by `createChannelsNode`. -/
def initialChannel : ChannelsNodeChannel :=
  { buffer := [], id := .null, origin := none, source := none,
    status := .connecting }

/-- Truthiness of `channel.origin` (a string or `null`). -/
def originTruthy : Option String → Bool
  | some s => s != ""
  | none => false

/-- Modelled from the spec: `isHandshakeMessage` lives in `helpers.ts`,
which is not among the provided sources.  The spec names three handshake
subtypes — handshake-open, handshake-acknowledge and handshake-confirm —
written on the wire as below.  Defined on `Option String` so that an
absent `type` field is simply not a handshake type. -/
def isHandshakeMessage (type : Option String) : Bool :=
  decide (type = some "handshake/syn" ∨ type = some "handshake/syn-ack" ∨
    type = some "handshake/ack")

/-- Modelled from the spec: `isInternalMessage` lives in `helpers.ts`,
which is not among the provided sources.  The internal protocol types the
node itself uses are the response and disconnect messages. -/
def isInternalMessage (type : Option String) : Bool :=
  decide (type = some "channel/response" ∨ type = some "channel/disconnect")

/-- Modelled from the spec: `isLegacyHandshakeMessage` lives in
`helpers.ts`, which is not among the provided sources.  The spec
describes it as detecting a differently-shaped handshake marker from an
older protocol version; it is modelled as recognising a distinct legacy
type tag, and as never throwing. -/
def isLegacyHandshakeMessage (e : JsMessageEvent) : Bool :=
  match e.data with
  | .obj m => decide (m.type = some "visual-editing/handshake")
  | _ => false

/-- One successful `postMessage` call: the constructed protocol message
(`connectionId`, `data`, the constant `domain`, `from`, `to`, `type`)
together with the `targetOrigin` and the sink it was posted on.  The
fresh uuid assigned to `msg.id` is not modelled; no claim refers to
outbound message ids. -/
structure PostedMsg where
  connectionId : JsNullable
  data : MsgData
  domain : String
  fromId : String
  toId : String
  type : String
  targetOrigin : String
  sink : Nat
deriving DecidableEq, Repr, BEq

/-- The message `send` constructs and posts when the guard
`channel.id && channel.origin && channel.source` holds; the `getD`
defaults are never exercised under that guard. -/
def mkProtocolMsg (cfg : ChannelsNodeOptions) (ch : ChannelsNodeChannel)
    (type : String) (data : MsgData) : PostedMsg :=
  { connectionId := ch.id, data := data, domain := "sanity/channels",
    fromId := cfg.id, toId := cfg.connectTo, type := type,
    targetOrigin := ch.origin.getD "", sink := ch.source.getD 0 }

/-- The `send` function of the node: a non-handshake, non-internal
message is buffered while the status is `connecting` or `reconnecting`;
otherwise, if the session id, origin and sink are all truthy, the message
is posted; otherwise nothing happens.  The `postMessage` transport
failure branch (environmental) is not modelled: posting is recorded as
succeeding. -/
def send (cfg : ChannelsNodeOptions) (ch : ChannelsNodeChannel)
    (type : String) (data : MsgData) :
    ChannelsNodeChannel × List PostedMsg :=
  if ¬ isHandshakeMessage (some type) ∧ ¬ isInternalMessage (some type) ∧
      (ch.status = .connecting ∨ ch.status = .reconnecting) then
    ({ ch with buffer := ch.buffer ++ [(type, data)] }, [])
  else if ch.id.truthy ∧ originTruthy ch.origin ∧ ch.source.isSome then
    (ch, [mkProtocolMsg cfg ch type data])
  else
    (ch, [])

/-- Sequentially sending a list of type/data pairs, threading the channel
state and concatenating the posted messages; this is the `forEach` loop
inside `flush`. -/
def sendMany (cfg : ChannelsNodeOptions) (ch : ChannelsNodeChannel) :
    List (String × MsgData) → ChannelsNodeChannel × List PostedMsg
  | [] => (ch, [])
  | (t, d) :: rest =>
      let r1 := send cfg ch t d
      let r2 := sendMany cfg r1.1 rest
      (r2.1, r1.2 ++ r2.2)

/-- The `flush` function: copy the buffer, clear it, then re-`send` every
buffered entry in insertion order. -/
def flush (cfg : ChannelsNodeOptions) (ch : ChannelsNodeChannel) :
    ChannelsNodeChannel × List PostedMsg :=
  sendMany cfg { ch with buffer := [] } ch.buffer

/-- The recorded callback and transport effects of one entry point:
posted messages, `onStatusUpdate` invocations, and `onEvent` invocations
(carrying the inbound type and data arguments). -/
structure Effects where
  out : List PostedMsg
  statusCalls : List ChannelStatus
  eventCalls : List (Option String × MsgData)
deriving DecidableEq, Repr, BEq

/-- No effects. -/
def Effects.empty : Effects := ⟨[], [], []⟩

/-- The `setConnectionStatus` function: store the status, invoke the
status callback, and flush the buffer when the new status is
`connected`. -/
def setConnectionStatus (cfg : ChannelsNodeOptions)
    (ch : ChannelsNodeChannel) (next : ChannelStatus) :
    ChannelsNodeChannel × Effects :=
  let ch1 := { ch with status := next }
  if next = .connected then
    let r := flush cfg ch1
    (r.1, ⟨r.2, [next], []⟩)
  else
    (ch1, ⟨[], [next], []⟩)

/-- The `disconnect` function: a no-op when already `disconnected`,
otherwise a transition to `disconnected`.  The line notifying the peer
with a disconnect message is commented out in the source, so no message
is posted. -/
def disconnect (cfg : ChannelsNodeOptions) (ch : ChannelsNodeChannel) :
    ChannelsNodeChannel × Effects :=
  if ch.status = .disconnected then (ch, Effects.empty)
  else setConnectionStatus cfg ch .disconnected

/-- The validity condition `isValidMessageEvent` checks on an envelope
object: the domain tag matches, the envelope is addressed to this node
from its configured peer, and it is not a response message. -/
def validObj (cfg : ChannelsNodeOptions) (m : WireMsg) : Prop :=
  m.domain = some "sanity/channels" ∧ m.toId = some cfg.id ∧
    m.fromId = some cfg.connectTo ∧ m.type ≠ some "channel/response"

instance (cfg : ChannelsNodeOptions) (m : WireMsg) :
    Decidable (validObj cfg m) := by
  unfold validObj; infer_instance

/-- The `isValidMessageEvent` predicate.  It destructures `e.data` and
reads `data.domain`, `data.to`, `data.from` and `data.type` without a
null check, so on `null` (or `undefined`) event data the property read
throws a TypeError, modelled as `Except.error`.  On a non-object
primitive every field reads as `undefined` and the predicate is false.
An envelope is valid when the domain tag matches, it is addressed to this
node from its configured peer, and it is not a response message. -/
def isValidMessageEvent (cfg : ChannelsNodeOptions) (e : JsMessageEvent) :
    Except Unit Bool :=
  match e.data with
  | .null => .error ()
  | .prim => .ok false
  | .obj m => .ok (decide (validObj cfg m))

/-- The outcome of `handleEvents` on one inbound event: the channel state
afterwards, the recorded effects, and whether a JavaScript exception
escaped the handler.  When an exception is thrown it happens inside
`isValidMessageEvent`, before any mutation or effect. -/
structure HandleResult where
  channel : ChannelsNodeChannel
  effects : Effects
  threw : Bool
deriving DecidableEq, Repr, BEq

/-- The `handleEvents` message listener, the single inbound entry point:
legacy handshake markers are reported and dropped; invalid events are
dropped; events from a non-matching origin (once one is pinned) are
dropped before any mutation; the source reference is refreshed; handshake
messages with a truthy payload drive the handshake; otherwise a message
whose `connectionId` and origin match is either a disconnect notification
or is dispatched to the application handler and acknowledged with a
response message. -/
def handleEvents (cfg : ChannelsNodeOptions) (ch : ChannelsNodeChannel)
    (e : JsMessageEvent) : HandleResult :=
  if isLegacyHandshakeMessage e then ⟨ch, Effects.empty, false⟩
  else
    match isValidMessageEvent cfg e, e.data with
    | .error _, _ => ⟨ch, Effects.empty, true⟩
    | .ok false, _ => ⟨ch, Effects.empty, false⟩
    | .ok true, .obj m =>
        if originTruthy ch.origin ∧ some e.origin ≠ ch.origin then
          ⟨ch, Effects.empty, false⟩
        else
          let ch1 := if e.source.isSome ∧ ch.source ≠ e.source then
            { ch with source := e.source } else ch
          if isHandshakeMessage m.type ∧ m.data.truthy then
            if m.type = some "handshake/syn" then
              let ch2 := { ch1 with origin := some e.origin,
                                    id := m.data.getId }
              let r1 := setConnectionStatus cfg ch2 .connecting
              let r2 := send cfg r1.1 "handshake/syn-ack"
                (.obj r1.1.id none)
              ⟨r2.1, ⟨r1.2.out ++ r2.2, r1.2.statusCalls,
                r1.2.eventCalls⟩, false⟩
            else if m.type = some "handshake/ack" ∧
                jsEq m.data.getId ch1.id then
              let r := setConnectionStatus cfg ch1 .connected
              ⟨r.1, r.2, false⟩
            else ⟨ch1, Effects.empty, false⟩
          else if jsEq m.connectionId ch1.id ∧
              some e.origin = ch1.origin then
            if m.type = some "channel/disconnect" then
              let r := setConnectionStatus cfg ch1 .disconnected
              ⟨r.1, r.2, false⟩
            else
              let r := send cfg ch1 "channel/response" (.obj .undefined m.id)
              ⟨r.1, ⟨r.2, [], [(m.type, m.data)]⟩, false⟩
          else ⟨ch1, Effects.empty, false⟩
    | .ok true, _ => ⟨ch, Effects.empty, false⟩

/-! Helper lemmas about the embedded operations. -/

/-- Strict equality on string-or-null-or-undefined values coincides with
propositional equality of the model. -/
theorem jsEq_eq_true_iff (a b : JsNullable) : jsEq a b = true ↔ a = b := by
  cases a <;> cases b <;> simp [jsEq]

/-- One `send` call never changes the session id, origin, source or
status of the channel; it can only grow the buffer. -/
theorem send_preserves (cfg : ChannelsNodeOptions) (ch : ChannelsNodeChannel)
    (t : String) (d : MsgData) :
    (send cfg ch t d).1.id = ch.id ∧
    (send cfg ch t d).1.origin = ch.origin ∧
    (send cfg ch t d).1.source = ch.source ∧
    (send cfg ch t d).1.status = ch.status := by
  unfold send
  split
  · exact ⟨rfl, rfl, rfl, rfl⟩
  · split
    · exact ⟨rfl, rfl, rfl, rfl⟩
    · exact ⟨rfl, rfl, rfl, rfl⟩

/-- Sending a list of messages never changes the session id, origin,
source or status of the channel. -/
theorem sendMany_preserves (cfg : ChannelsNodeOptions)
    (msgs : List (String × MsgData)) : ∀ ch : ChannelsNodeChannel,
    (sendMany cfg ch msgs).1.id = ch.id ∧
    (sendMany cfg ch msgs).1.origin = ch.origin ∧
    (sendMany cfg ch msgs).1.source = ch.source ∧
    (sendMany cfg ch msgs).1.status = ch.status := by
  induction msgs with
  | nil => intro ch; exact ⟨rfl, rfl, rfl, rfl⟩
  | cons hd tl ih =>
      intro ch
      obtain ⟨t, d⟩ := hd
      have h1 := send_preserves cfg ch t d
      have h2 := ih (send cfg ch t d).1
      refine ⟨?_, ?_, ?_, ?_⟩ <;>
        simp only [sendMany] <;>
        [exact h2.1.trans h1.1; exact h2.2.1.trans h1.2.1;
         exact h2.2.2.1.trans h1.2.2.1; exact h2.2.2.2.trans h1.2.2.2]

/-- While the channel is `connected` with a truthy session id, origin and
sink, every `send` posts its message immediately and leaves the state
unchanged. -/
theorem send_connected (cfg : ChannelsNodeOptions) (ch : ChannelsNodeChannel)
    (t : String) (d : MsgData) (hst : ch.status = .connected)
    (hid : ch.id.truthy = true) (hor : originTruthy ch.origin = true)
    (hsrc : ch.source.isSome = true) :
    send cfg ch t d = (ch, [mkProtocolMsg cfg ch t d]) := by
  unfold send
  rw [if_neg, if_pos ⟨hid, hor, hsrc⟩]
  rintro ⟨-, -, h | h⟩ <;> rw [hst] at h <;> exact ChannelStatus.noConfusion h

/-- While the channel is `connected` with a truthy session id, origin and
sink, sending a list of messages posts them all, in order, with the state
unchanged. -/
theorem sendMany_connected (cfg : ChannelsNodeOptions)
    (ch : ChannelsNodeChannel) (msgs : List (String × MsgData))
    (hst : ch.status = .connected) (hid : ch.id.truthy = true)
    (hor : originTruthy ch.origin = true) (hsrc : ch.source.isSome = true) :
    sendMany cfg ch msgs =
      (ch, msgs.map fun p => mkProtocolMsg cfg ch p.1 p.2) := by
  induction msgs with
  | nil => rfl
  | cons hd tl ih =>
      obtain ⟨t, d⟩ := hd
      simp only [sendMany, send_connected cfg ch t d hst hid hor hsrc, ih,
        List.map_cons, List.singleton_append]

/-- `setConnectionStatus` always stores the requested status. -/
theorem setConnectionStatus_status (cfg : ChannelsNodeOptions)
    (ch : ChannelsNodeChannel) (next : ChannelStatus) :
    (setConnectionStatus cfg ch next).1.status = next := by
  unfold setConnectionStatus
  split
  · exact (sendMany_preserves cfg ch.buffer _).2.2.2
  · rfl

/-- `setConnectionStatus` invokes the status callback exactly once, with
the new status. -/
theorem setConnectionStatus_statusCalls (cfg : ChannelsNodeOptions)
    (ch : ChannelsNodeChannel) (next : ChannelStatus) :
    (setConnectionStatus cfg ch next).2.statusCalls = [next] := by
  unfold setConnectionStatus
  split <;> rfl

/-- `setConnectionStatus` never invokes the application handler. -/
theorem setConnectionStatus_eventCalls (cfg : ChannelsNodeOptions)
    (ch : ChannelsNodeChannel) (next : ChannelStatus) :
    (setConnectionStatus cfg ch next).2.eventCalls = [] := by
  unfold setConnectionStatus
  split <;> rfl

/-- Characterisation of application handler invocations: either no
handler call is recorded for an inbound event, or the event carried a
valid envelope whose `connectionId` strictly equals the current session
id and whose origin equals the pinned origin, of a type that is neither a
truthy-payload handshake nor a disconnect; the handler then receives
exactly the envelope type and payload. -/
theorem handler_call_spec (cfg : ChannelsNodeOptions)
    (ch : ChannelsNodeChannel) (e : JsMessageEvent) :
    (handleEvents cfg ch e).effects.eventCalls = [] ∨
    ∃ m : WireMsg, e.data = .obj m ∧
      (handleEvents cfg ch e).effects.eventCalls = [(m.type, m.data)] ∧
      validObj cfg m ∧
      ¬ (isHandshakeMessage m.type = true ∧ m.data.truthy = true) ∧
      m.type ≠ some "channel/disconnect" ∧
      m.connectionId = ch.id ∧ ch.origin = some e.origin := by
  obtain ⟨eo, es, ed⟩ := e
  cases ed with
  | null => left; rfl
  | prim => left; rfl
  | obj m =>
      by_cases hv : validObj cfg m
      · unfold handleEvents
        by_cases hleg : m.type = some "visual-editing/handshake"
        · rw [if_pos (show isLegacyHandshakeMessage ⟨eo, es, .obj m⟩ = true by
            simp [isLegacyHandshakeMessage, hleg])]
          left; rfl
        · rw [if_neg (show ¬ isLegacyHandshakeMessage ⟨eo, es, .obj m⟩ = true by
            simp [isLegacyHandshakeMessage, hleg])]
          rw [show isValidMessageEvent cfg ⟨eo, es, .obj m⟩ = .ok true by
            simp [isValidMessageEvent, hv]]
          dsimp only
          by_cases hgate : originTruthy ch.origin ∧ some eo ≠ ch.origin
          · rw [if_pos hgate]; left; rfl
          · rw [if_neg hgate]
            set ch1 := if es.isSome ∧ ch.source ≠ es then
              { ch with source := es } else ch with hch1
            have hid1 : ch1.id = ch.id := by rw [hch1]; split <;> rfl
            have hor1 : ch1.origin = ch.origin := by rw [hch1]; split <;> rfl
            clear_value ch1
            by_cases hhs : isHandshakeMessage m.type = true ∧ m.data.truthy = true
            · rw [if_pos hhs]
              by_cases hsyn : m.type = some "handshake/syn"
              · rw [if_pos hsyn]; left
                simp [setConnectionStatus_eventCalls]
              · rw [if_neg hsyn]
                by_cases hack : m.type = some "handshake/ack" ∧
                    jsEq m.data.getId ch1.id = true
                · rw [if_pos hack]; left
                  simp [setConnectionStatus_eventCalls]
                · rw [if_neg hack]; left; rfl
            · rw [if_neg hhs]
              by_cases hdisp : jsEq m.connectionId ch1.id = true ∧
                  some eo = ch1.origin
              · rw [if_pos hdisp]
                by_cases hdc : m.type = some "channel/disconnect"
                · rw [if_pos hdc]; left
                  simp [setConnectionStatus_eventCalls]
                · rw [if_neg hdc]
                  right
                  refine ⟨m, rfl, rfl, hv, hhs, hdc, ?_, ?_⟩
                  · rw [← hid1]
                    exact (jsEq_eq_true_iff _ _).mp hdisp.1
                  · rw [← hor1]
                    exact hdisp.2.symm
              · rw [if_neg hdisp]; left; rfl
      · left
        unfold handleEvents
        split
        · rfl
        · rw [show isValidMessageEvent cfg ⟨eo, es, .obj m⟩ = .ok false by
            simp [isValidMessageEvent, hv]]
          rfl

/-- An inbound event from a non-matching origin, once an origin is
pinned, leaves the channel unchanged and produces no effect at all. -/
theorem handleEvents_wrong_origin (cfg : ChannelsNodeOptions)
    (ch : ChannelsNodeChannel) (e : JsMessageEvent) (o : String)
    (hor : ch.origin = some o) (ho : o ≠ "") (hmis : e.origin ≠ o) :
    (handleEvents cfg ch e).channel = ch ∧
    (handleEvents cfg ch e).effects = Effects.empty := by
  obtain ⟨eo, es, ed⟩ := e
  have hmis2 : eo ≠ o := hmis
  cases ed with
  | null => exact ⟨rfl, rfl⟩
  | prim => exact ⟨rfl, rfl⟩
  | obj m =>
      unfold handleEvents
      by_cases hleg : isLegacyHandshakeMessage ⟨eo, es, .obj m⟩ = true
      · rw [if_pos hleg]; exact ⟨rfl, rfl⟩
      · rw [if_neg hleg]
        by_cases hv : validObj cfg m
        · rw [show isValidMessageEvent cfg ⟨eo, es, .obj m⟩ = .ok true by
            simp [isValidMessageEvent, hv]]
          dsimp only
          rw [if_pos (show originTruthy ch.origin = true ∧
              some eo ≠ ch.origin by
            refine ⟨by simp [originTruthy, hor, ho], ?_⟩
            rw [hor]
            intro hcon
            exact hmis2 (by injection hcon))]
          exact ⟨rfl, rfl⟩
        · rw [show isValidMessageEvent cfg ⟨eo, es, .obj m⟩ = .ok false by
            simp [isValidMessageEvent, hv]]
          exact ⟨rfl, rfl⟩

/-- One `send` call never changes the source reference. -/
theorem send_source (cfg : ChannelsNodeOptions) (ch : ChannelsNodeChannel)
    (t : String) (d : MsgData) : (send cfg ch t d).1.source = ch.source :=
  (send_preserves cfg ch t d).2.2.1

/-- `setConnectionStatus` never changes the source reference. -/
theorem setConnectionStatus_source (cfg : ChannelsNodeOptions)
    (ch : ChannelsNodeChannel) (next : ChannelStatus) :
    (setConnectionStatus cfg ch next).1.source = ch.source := by
  unfold setConnectionStatus
  split
  · exact (sendMany_preserves cfg ch.buffer _).2.2.1
  · rfl

/-! Concrete fixtures used by witnesses and counterexamples. -/

/-- A concrete node configuration. -/
def cfgEx : ChannelsNodeOptions := ⟨"overlays", "presentation"⟩

/-- A channel with a fully established session. -/
def chEstablished : ChannelsNodeChannel :=
  ⟨[], .str "abc", some "https://studio.example", some 1, .connected⟩

/-- A valid, session-id-matching application envelope sent from the wrong
origin. -/
def wrongOriginEvent : JsMessageEvent :=
  ⟨"https://evil.example", some 2,
    .obj ⟨some "sanity/channels", some "presentation", some "overlays",
      some "app/event", .str "abc", some "m6", .payload "x"⟩⟩

/-- A valid application envelope carrying a session id different from the
established one. -/
def foreignSessionMsg : WireMsg :=
  ⟨some "sanity/channels", some "presentation", some "overlays",
    some "app/event", .str "other", some "m5", .payload "x"⟩

/-- The foreign-session envelope arriving from the pinned origin. -/
def foreignSessionEvent : JsMessageEvent :=
  ⟨"https://studio.example", some 1, .obj foreignSessionMsg⟩

/-- A response-typed envelope, otherwise fully valid and matching. -/
def responseMsg : WireMsg :=
  ⟨some "sanity/channels", some "presentation", some "overlays",
    some "channel/response", .str "abc", some "m7", .obj .undefined (some "m1")⟩

/-- The response envelope arriving from the pinned origin. -/
def responseEvent : JsMessageEvent :=
  ⟨"https://studio.example", some 1, .obj responseMsg⟩

/-! Claim theorems. -/

/-- Claim C2: once the session id is set, an inbound envelope carrying a
different session id — in its `connectionId` slot and, for handshake
messages, in its payload id slot — never causes the application handler
to be invoked, for every envelope type except a fresh handshake-open. -/
theorem claim2_session_pinning (cfg : ChannelsNodeOptions)
    (ch : ChannelsNodeChannel) (e : JsMessageEvent) (m : WireMsg)
    (cid : String) (hid : ch.id = .str cid)
    (hdata : e.data = .obj m)
    (hcid : m.connectionId ≠ .str cid)
    (hdid : m.data.getId ≠ .str cid)
    (hsyn : m.type ≠ some "handshake/syn") :
    (handleEvents cfg ch e).effects.eventCalls = [] := by
  rcases handler_call_spec cfg ch e with h | ⟨m2, hdata2, -, -, -, -, hconn, -⟩
  · exact h
  · have hm : m = m2 := by
      have h2 := hdata.symm.trans hdata2
      injection h2
    subst hm
    rw [hid] at hconn
    exact absurd hconn hcid

/-- Witness for C2: a foreign-session envelope on an established channel
invokes no handler. -/
theorem claim2_session_pinning_witness :
    (handleEvents cfgEx chEstablished foreignSessionEvent).effects.eventCalls
      = [] :=
  claim2_session_pinning cfgEx chEstablished foreignSessionEvent
    foreignSessionMsg "abc" rfl rfl (by decide) (by decide) (by decide)

/-- Claim C3: once the origin is pinned, an inbound message event from
any other origin is rejected with no state change, no handler invocation
and no reply, even if its session id matches and even for handshake
envelopes. -/
theorem claim3_origin_pinning (cfg : ChannelsNodeOptions)
    (ch : ChannelsNodeChannel) (e : JsMessageEvent) (o : String)
    (hor : ch.origin = some o) (ho : o ≠ "") (hmis : e.origin ≠ o) :
    (handleEvents cfg ch e).channel = ch ∧
    (handleEvents cfg ch e).effects = Effects.empty :=
  handleEvents_wrong_origin cfg ch e o hor ho hmis

/-- Witness for C3: a valid, session-matching envelope from a foreign
origin leaves an established channel untouched and produces no effect. -/
theorem claim3_origin_pinning_witness :
    (handleEvents cfgEx chEstablished wrongOriginEvent).channel =
        chEstablished ∧
    (handleEvents cfgEx chEstablished wrongOriginEvent).effects =
        Effects.empty :=
  claim3_origin_pinning cfgEx chEstablished wrongOriginEvent
    "https://studio.example" rfl (by decide) (by decide)

/-- Claim C10: an inbound envelope of type channel/response always fails
envelope validation and is ignored entirely: no state change, no handler
invocation, no reply, and no exception. -/
theorem claim10_response_ignored (cfg : ChannelsNodeOptions)
    (ch : ChannelsNodeChannel) (e : JsMessageEvent) (m : WireMsg)
    (hdata : e.data = .obj m) (htype : m.type = some "channel/response") :
    isValidMessageEvent cfg e = .ok false ∧
    handleEvents cfg ch e = ⟨ch, Effects.empty, false⟩ := by
  obtain ⟨eo, es, ed⟩ := e
  have hdata2 : ed = .obj m := hdata
  subst hdata2
  have hv : ¬ validObj cfg m := fun h => h.2.2.2 htype
  constructor
  · simp [isValidMessageEvent, hv]
  · unfold handleEvents
    rw [if_neg (show ¬ isLegacyHandshakeMessage ⟨eo, es, .obj m⟩ = true by
        simp [isLegacyHandshakeMessage, htype])]
    rw [show isValidMessageEvent cfg ⟨eo, es, .obj m⟩ = .ok false by
        simp [isValidMessageEvent, hv]]

/-- Witness for C10: a concrete response envelope from the pinned origin,
session id matching, is classified invalid and ignored. -/
theorem claim10_response_ignored_witness :
    isValidMessageEvent cfgEx responseEvent = .ok false ∧
    handleEvents cfgEx chEstablished responseEvent =
      ⟨chEstablished, Effects.empty, false⟩ :=
  claim10_response_ignored cfgEx chEstablished responseEvent responseMsg
    rfl rfl

/-- Claim C1: on entering `connected` (with a truthy session id, origin
and sink) the outbound buffer is flushed in FIFO order — every buffered
type/data pair is posted in insertion order — before the message of any
later `send` call, and the buffer is left empty. -/
theorem claim1_flush_fifo (cfg : ChannelsNodeOptions)
    (ch : ChannelsNodeChannel) (later : List (String × MsgData))
    (hid : ch.id.truthy = true) (hor : originTruthy ch.origin = true)
    (hsrc : ch.source.isSome = true) :
    (setConnectionStatus cfg ch .connected).1 =
      { ch with status := .connected, buffer := [] } ∧
    (setConnectionStatus cfg ch .connected).2.out ++
        (sendMany cfg (setConnectionStatus cfg ch .connected).1 later).2 =
      (ch.buffer ++ later).map fun p =>
        mkProtocolMsg cfg { ch with status := .connected, buffer := [] }
          p.1 p.2 := by
  have hconn : sendMany cfg { ch with status := .connected, buffer := [] }
      ch.buffer =
      ({ ch with status := .connected, buffer := [] },
        ch.buffer.map fun p =>
          mkProtocolMsg cfg { ch with status := .connected, buffer := [] }
            p.1 p.2) :=
    sendMany_connected cfg _ ch.buffer rfl hid hor hsrc
  have h1 : setConnectionStatus cfg ch .connected =
      ({ ch with status := .connected, buffer := [] },
        ⟨ch.buffer.map fun p =>
          mkProtocolMsg cfg { ch with status := .connected, buffer := [] }
            p.1 p.2, [.connected], []⟩) := by
    unfold setConnectionStatus flush
    rw [if_pos rfl]
    dsimp only
    rw [hconn]
  constructor
  · rw [h1]
  · rw [h1]
    dsimp only
    rw [sendMany_connected cfg { ch with status := .connected, buffer := [] }
      later rfl hid hor hsrc]
    dsimp only
    rw [List.map_append]

/-- A channel still `connecting`, with an assigned session, holding two
buffered application messages. -/
def chBuffered : ChannelsNodeChannel :=
  ⟨[("app/first", .payload "1"), ("app/second", .payload "2")],
    .str "abc", some "https://studio.example", some 1, .connecting⟩

/-- The buffered channel after its transition to `connected`. -/
def chBufferedConnected : ChannelsNodeChannel :=
  { chBuffered with status := .connected, buffer := [] }

/-- Witness for C1: the two buffered messages are posted in insertion
order, followed by a message sent after the connect transition. -/
theorem claim1_flush_fifo_witness :
    (setConnectionStatus cfgEx chBuffered .connected).1 =
      chBufferedConnected ∧
    (setConnectionStatus cfgEx chBuffered .connected).2.out ++
        (sendMany cfgEx (setConnectionStatus cfgEx chBuffered .connected).1
          [("app/third", MsgData.payload "3")]).2 =
      (chBuffered.buffer ++ [("app/third", MsgData.payload "3")]).map
        (fun p => mkProtocolMsg cfgEx chBufferedConnected p.1 p.2) :=
  claim1_flush_fifo cfgEx chBuffered [("app/third", MsgData.payload "3")]
    (by decide) (by decide) (by decide)

/-- A channel whose session was established and then disconnected. -/
def chDisconnectedEx : ChannelsNodeChannel :=
  ⟨[], .str "abc", some "https://studio.example", some 1, .disconnected⟩

/-- Counterexample to C4 as stated: with status `disconnected` — which is
not `connected` — an application-typed `send` does not buffer the message
and does not return without transmitting: it posts the message to the
peer immediately. -/
theorem claim4_counterexample :
    chDisconnectedEx.status ≠ .connected ∧
    isHandshakeMessage (some "app/event") = false ∧
    isInternalMessage (some "app/event") = false ∧
    send cfgEx chDisconnectedEx "app/event" (.payload "p") =
      (chDisconnectedEx,
        [⟨.str "abc", .payload "p", "sanity/channels", "overlays",
          "presentation", "app/event", "https://studio.example", 1⟩]) := by
  decide

/-- Claim C4 (amended): an application-typed `send` buffers the message
and transmits nothing exactly when the status is `connecting` or
`reconnecting` (not merely "not connected": in the `disconnected` and
`unhealthy` statuses the message is posted or dropped instead). -/
theorem claim4_buffering (cfg : ChannelsNodeOptions)
    (ch : ChannelsNodeChannel) (t : String) (d : MsgData)
    (hh : isHandshakeMessage (some t) = false)
    (hi : isInternalMessage (some t) = false)
    (hst : ch.status = .connecting ∨ ch.status = .reconnecting) :
    send cfg ch t d = ({ ch with buffer := ch.buffer ++ [(t, d)] }, []) := by
  unfold send
  rw [if_pos ⟨by simp [hh], by simp [hi], hst⟩]

/-- Witness for C4 (amended): an application message sent on the freshly
created channel is appended to the buffer and nothing is posted. -/
theorem claim4_buffering_witness :
    send cfgEx initialChannel "app/event" (.payload "p") =
      ({ initialChannel with buffer := [("app/event", .payload "p")] },
        []) :=
  claim4_buffering cfgEx initialChannel "app/event" (.payload "p")
    (by decide) (by decide) (Or.inl rfl)

/-- Counterexample to C5 as stated: disconnecting a fully established,
connected channel does transition to `disconnected` but posts no message
at all — the peer is not notified (the notifying send is commented out in
the source). -/
theorem claim5_counterexample :
    chEstablished.status ≠ .disconnected ∧
    (disconnect cfgEx chEstablished).1.status = .disconnected ∧
    (disconnect cfgEx chEstablished).2.out = [] := by
  decide

/-- Claim C5 (amended): calling `disconnect` on a channel that is not
already `disconnected` moves it to the terminal `disconnected` status and
reports that through the status callback, but transmits nothing to the
peer. -/
theorem claim5_disconnect (cfg : ChannelsNodeOptions)
    (ch : ChannelsNodeChannel) (hst : ch.status ≠ .disconnected) :
    disconnect cfg ch =
      ({ ch with status := .disconnected }, ⟨[], [.disconnected], []⟩) := by
  unfold disconnect
  rw [if_neg hst]
  unfold setConnectionStatus
  dsimp only
  rw [if_neg (by decide :
    ¬ (ChannelStatus.disconnected = ChannelStatus.connected))]

/-- Witness for C5 (amended): disconnecting the established channel. -/
theorem claim5_disconnect_witness :
    disconnect cfgEx chEstablished =
      ({ chEstablished with status := .disconnected },
        ⟨[], [.disconnected], []⟩) :=
  claim5_disconnect cfgEx chEstablished (by decide)

/-- An already-established channel receiving a replayed handshake-open
that carries the session id already in use. -/
def synReplayMsg : WireMsg :=
  ⟨some "sanity/channels", some "presentation", some "overlays",
    some "handshake/syn", .undefined, some "m2", .obj (.str "abc") none⟩

/-- The replayed handshake-open event from the pinned origin. -/
def synReplayEvent : JsMessageEvent :=
  ⟨"https://studio.example", some 1, .obj synReplayMsg⟩

/-- Counterexample to C6 as stated: the responder does not mint a new
session id on a handshake-open — it adopts the id carried in the
envelope.  Here the envelope carries the session id already in place, and
after handling, the channel id and the replied syn-ack both carry exactly
that same id: nothing fresh was minted. -/
theorem claim6_counterexample :
    chEstablished.id = .str "abc" ∧
    synReplayMsg.data.getId = .str "abc" ∧
    (handleEvents cfgEx chEstablished synReplayEvent).channel.id =
      .str "abc" ∧
    (handleEvents cfgEx chEstablished synReplayEvent).effects.out.map
      (fun p => p.data) = [.obj (.str "abc") none] := by
  decide

/-- Claim C6 (amended): upon receiving a handshake-open envelope the
responder adopts the session id carried in the envelope (rather than
minting one), pins the sender origin, replies with a handshake-acknowledge
carrying that id, and reports status `connecting`; only after observing a
handshake-confirm echoing the same session id does the status become
`connected`. -/
theorem claim6_responder_handshake (cfg : ChannelsNodeOptions)
    (ch : ChannelsNodeChannel) (e e2 : JsMessageEvent) (m m2 : WireMsg)
    (sid : String) (s : Nat)
    (hdata : e.data = .obj m)
    (hdom : m.domain = some "sanity/channels")
    (hto : m.toId = some cfg.id)
    (hfrom : m.fromId = some cfg.connectTo)
    (htype : m.type = some "handshake/syn")
    (hpay : m.data = .obj (.str sid) none)
    (hsid : sid ≠ "")
    (horig : e.origin ≠ "")
    (hsrc : e.source = some s)
    (hgate : ch.origin = none ∨ ch.origin = some e.origin)
    (hdata2 : e2.data = .obj m2)
    (hdom2 : m2.domain = some "sanity/channels")
    (hto2 : m2.toId = some cfg.id)
    (hfrom2 : m2.fromId = some cfg.connectTo)
    (htype2 : m2.type = some "handshake/ack")
    (hpay2 : m2.data.getId = .str sid)
    (horig2 : e2.origin = e.origin) :
    (handleEvents cfg ch e).channel.id = .str sid ∧
    (handleEvents cfg ch e).channel.origin = some e.origin ∧
    (handleEvents cfg ch e).channel.status = .connecting ∧
    (handleEvents cfg ch e).effects.statusCalls = [.connecting] ∧
    (handleEvents cfg ch e).effects.eventCalls = [] ∧
    (handleEvents cfg ch e).effects.out =
      [⟨.str sid, .obj (.str sid) none, "sanity/channels", cfg.id,
        cfg.connectTo, "handshake/syn-ack", e.origin, s⟩] ∧
    (handleEvents cfg (handleEvents cfg ch e).channel e2).channel.status =
      .connected ∧
    (handleEvents cfg (handleEvents cfg ch e).channel e2).effects.statusCalls
      = [.connected] := by
  obtain ⟨eo, es, ed⟩ := e
  obtain ⟨cb, ci, co, cs, cst⟩ := ch
  have hed : ed = .obj m := hdata
  have hes : es = some s := hsrc
  subst hed hes
  have heo : eo ≠ "" := horig
  -- run the handshake-open event
  have hrun : handleEvents cfg ⟨cb, ci, co, cs, cst⟩ ⟨eo, some s, .obj m⟩ =
      ⟨⟨cb, .str sid, some eo, some s, .connecting⟩,
        ⟨[⟨.str sid, .obj (.str sid) none, "sanity/channels", cfg.id,
          cfg.connectTo, "handshake/syn-ack", eo, s⟩],
          [.connecting], []⟩, false⟩ := by
    unfold handleEvents
    rw [if_neg (show ¬ isLegacyHandshakeMessage ⟨eo, some s, .obj m⟩ = true by
      simp [isLegacyHandshakeMessage, htype])]
    rw [show isValidMessageEvent cfg ⟨eo, some s, .obj m⟩ = .ok true by
      simp [isValidMessageEvent]
      exact ⟨hdom, hto, hfrom, by simp [htype]⟩]
    dsimp only
    rw [if_neg (show ¬ (originTruthy co = true ∧ some eo ≠ co) by
      rcases hgate with h | h <;> rw [show co = _ from h]
      · simp [originTruthy]
      · simp)]
    rw [if_pos (show isHandshakeMessage m.type = true ∧ m.data.truthy = true by
      exact ⟨by simp [isHandshakeMessage, htype], by rw [hpay]; rfl⟩)]
    rw [if_pos htype]
    rw [hpay]
    dsimp only [MsgData.getId]
    by_cases hcs : cs = some s
    · subst hcs
      rw [if_neg (show ¬ ((some s : Option Nat).isSome = true ∧
          some s ≠ some s) by simp)]
      dsimp only
      unfold setConnectionStatus
      dsimp only
      rw [if_neg (by decide :
        ¬ (ChannelStatus.connecting = ChannelStatus.connected))]
      dsimp only
      unfold send
      rw [if_neg (show ¬ (¬ isHandshakeMessage (some "handshake/syn-ack") =
          true ∧ ¬ isInternalMessage (some "handshake/syn-ack") = true ∧
          (ChannelStatus.connecting = ChannelStatus.connecting ∨
            ChannelStatus.connecting = ChannelStatus.reconnecting)) by
        simp [isHandshakeMessage])]
      rw [if_pos (show JsNullable.truthy (.str sid) = true ∧
          originTruthy (some eo) = true ∧ (some s : Option Nat).isSome = true
        from ⟨by simp [JsNullable.truthy, hsid],
          by simp [originTruthy, heo], rfl⟩)]
      rfl
    · rw [if_pos (show (some s : Option Nat).isSome = true ∧ cs ≠ some s
        from ⟨rfl, hcs⟩)]
      dsimp only
      unfold setConnectionStatus
      dsimp only
      rw [if_neg (by decide :
        ¬ (ChannelStatus.connecting = ChannelStatus.connected))]
      dsimp only
      unfold send
      rw [if_neg (show ¬ (¬ isHandshakeMessage (some "handshake/syn-ack") =
          true ∧ ¬ isInternalMessage (some "handshake/syn-ack") = true ∧
          (ChannelStatus.connecting = ChannelStatus.connecting ∨
            ChannelStatus.connecting = ChannelStatus.reconnecting)) by
        simp [isHandshakeMessage])]
      rw [if_pos (show JsNullable.truthy (.str sid) = true ∧
          originTruthy (some eo) = true ∧ (some s : Option Nat).isSome = true
        from ⟨by simp [JsNullable.truthy, hsid],
          by simp [originTruthy, heo], rfl⟩)]
      rfl
  have htr : m2.data.truthy = true ∧ jsEq m2.data.getId (.str sid) = true := by
    cases hm2 : m2.data with
    | undefined => rw [hm2] at hpay2; simp [MsgData.getId] at hpay2
    | payload p => rw [hm2] at hpay2; simp [MsgData.getId] at hpay2
    | obj i r =>
        rw [hm2] at hpay2
        simp only [MsgData.getId] at hpay2
        subst hpay2
        exact ⟨rfl, by simp [MsgData.getId, jsEq]⟩
  have hrun2 :
      (handleEvents cfg ⟨cb, .str sid, some eo, some s, .connecting⟩
          e2).channel.status = ChannelStatus.connected ∧
      (handleEvents cfg ⟨cb, .str sid, some eo, some s, .connecting⟩
          e2).effects.statusCalls = [ChannelStatus.connected] := by
    obtain ⟨eo2, es2, ed2⟩ := e2
    have hed2 : ed2 = .obj m2 := hdata2
    subst hed2
    have heo2 : eo2 = eo := horig2
    rw [heo2]
    unfold handleEvents
    rw [if_neg (show ¬ isLegacyHandshakeMessage ⟨eo, es2, .obj m2⟩ = true by
      simp [isLegacyHandshakeMessage, htype2])]
    rw [show isValidMessageEvent cfg ⟨eo, es2, .obj m2⟩ = .ok true by
      simp [isValidMessageEvent]
      exact ⟨hdom2, hto2, hfrom2, by simp [htype2]⟩]
    dsimp only
    rw [if_neg (show ¬ (originTruthy (some eo) = true ∧
        some eo ≠ some eo) by simp)]
    by_cases hsu : es2.isSome = true ∧ (some s : Option Nat) ≠ es2
    · rw [if_pos hsu]
      rw [if_pos (show isHandshakeMessage m2.type = true ∧
          m2.data.truthy = true from
        ⟨by simp [isHandshakeMessage, htype2], htr.1⟩)]
      rw [if_neg (show ¬ m2.type = some "handshake/syn" by simp [htype2])]
      rw [if_pos (show m2.type = some "handshake/ack" ∧
          jsEq m2.data.getId (JsNullable.str sid) = true from ⟨htype2, htr.2⟩)]
      exact ⟨setConnectionStatus_status cfg _ _,
        setConnectionStatus_statusCalls cfg _ _⟩
    · rw [if_neg hsu]
      rw [if_pos (show isHandshakeMessage m2.type = true ∧
          m2.data.truthy = true from
        ⟨by simp [isHandshakeMessage, htype2], htr.1⟩)]
      rw [if_neg (show ¬ m2.type = some "handshake/syn" by simp [htype2])]
      rw [if_pos (show m2.type = some "handshake/ack" ∧
          jsEq m2.data.getId (JsNullable.str sid) = true from ⟨htype2, htr.2⟩)]
      exact ⟨setConnectionStatus_status cfg _ _,
        setConnectionStatus_statusCalls cfg _ _⟩
  rw [hrun]
  exact ⟨rfl, rfl, rfl, rfl, rfl, rfl, hrun2.1, hrun2.2⟩

/-- A fresh handshake-open establishing session s1. -/
def synMsgW : WireMsg :=
  ⟨some "sanity/channels", some "presentation", some "overlays",
    some "handshake/syn", .undefined, some "w1", .obj (.str "s1") none⟩

/-- The handshake-open event. -/
def synEventW : JsMessageEvent :=
  ⟨"https://studio.example", some 1, .obj synMsgW⟩

/-- The matching handshake-confirm echoing session s1. -/
def ackMsgW : WireMsg :=
  ⟨some "sanity/channels", some "presentation", some "overlays",
    some "handshake/ack", .str "s1", some "w2", .obj (.str "s1") none⟩

/-- The handshake-confirm event. -/
def ackEventW : JsMessageEvent :=
  ⟨"https://studio.example", some 1, .obj ackMsgW⟩

/-- Witness for C6 (amended): a full three-way handshake on the fresh
channel, driven by concrete syn and ack events. -/
theorem claim6_responder_handshake_witness :
    (handleEvents cfgEx initialChannel synEventW).channel.id =
        .str "s1" ∧
    (handleEvents cfgEx initialChannel synEventW).channel.origin =
        some "https://studio.example" ∧
    (handleEvents cfgEx initialChannel synEventW).channel.status =
        .connecting ∧
    (handleEvents cfgEx initialChannel synEventW).effects.statusCalls =
        [.connecting] ∧
    (handleEvents cfgEx initialChannel synEventW).effects.eventCalls =
        [] ∧
    (handleEvents cfgEx initialChannel synEventW).effects.out =
        [⟨.str "s1", .obj (.str "s1") none, "sanity/channels", "overlays",
          "presentation", "handshake/syn-ack", "https://studio.example",
          1⟩] ∧
    (handleEvents cfgEx
        (handleEvents cfgEx initialChannel synEventW).channel
        ackEventW).channel.status = .connected ∧
    (handleEvents cfgEx
        (handleEvents cfgEx initialChannel synEventW).channel
        ackEventW).effects.statusCalls = [.connected] :=
  claim6_responder_handshake cfgEx initialChannel synEventW ackEventW
    synMsgW ackMsgW "s1" 1 rfl rfl rfl rfl rfl rfl (by decide) (by decide)
    rfl (Or.inl rfl) rfl rfl rfl rfl rfl rfl rfl

/-- Claim C7 (refuted by the code, confirming a bug): decoding is
supposed never to throw across the trust boundary, classifying malformed
input — including null event data — as invalid and dropping it.  On a
message event whose data is null, however, `isValidMessageEvent`
destructures the data and reads its domain field, which throws a
TypeError; the run below records the escaped exception. -/
theorem claim7_null_data_throws :
    handleEvents cfgEx initialChannel
        ⟨"https://studio.example", some 1, .null⟩ =
      ⟨initialChannel, Effects.empty, true⟩ ∧
    isValidMessageEvent cfgEx ⟨"https://studio.example", some 1, .null⟩ =
      .error () := by
  exact ⟨rfl, rfl⟩

/-- A valid event that passes the origin gate updates the stored source
reference to the sender source, in every branch of the handler. -/
theorem handleEvents_source_update (cfg : ChannelsNodeOptions)
    (ch : ChannelsNodeChannel) (e : JsMessageEvent) (m : WireMsg) (s : Nat)
    (hdata : e.data = .obj m)
    (hv : validObj cfg m)
    (hleg : m.type ≠ some "visual-editing/handshake")
    (hgate : ch.origin = none ∨ ch.origin = some e.origin)
    (hes : e.source = some s) :
    (handleEvents cfg ch e).channel.source = some s := by
  obtain ⟨eo, es, ed⟩ := e
  have hed : ed = .obj m := hdata
  have hess : es = some s := hes
  subst hed hess
  have hgate2 : ch.origin = none ∨ ch.origin = some eo := hgate
  unfold handleEvents
  rw [if_neg (show ¬ isLegacyHandshakeMessage ⟨eo, some s, .obj m⟩ = true by
    simp [isLegacyHandshakeMessage, hleg])]
  rw [show isValidMessageEvent cfg ⟨eo, some s, .obj m⟩ = .ok true by
    simp [isValidMessageEvent, hv]]
  dsimp only
  rw [if_neg (show ¬ (originTruthy ch.origin = true ∧ some eo ≠ ch.origin) by
    rcases hgate2 with h | h <;> rw [h] <;> simp [originTruthy])]
  by_cases hcs : ch.source = some s
  · rw [if_neg (show ¬ ((some s : Option Nat).isSome = true ∧
        ch.source ≠ some s) by simp [hcs])]
    split
    · split
      · simp [send_source, setConnectionStatus_source, hcs]
      · split
        · simp [setConnectionStatus_source, hcs]
        · exact hcs
    · split
      · split
        · simp [setConnectionStatus_source, hcs]
        · simp [send_source, hcs]
      · exact hcs
  · rw [if_pos (show (some s : Option Nat).isSome = true ∧
        ch.source ≠ some s from ⟨rfl, hcs⟩)]
    split
    · split
      · simp [send_source, setConnectionStatus_source]
      · split
        · simp [setConnectionStatus_source]
        · rfl
    · split
      · split
        · simp [setConnectionStatus_source]
        · simp [send_source]
      · rfl

/-- A handshake-typed envelope whose payload is absent (falsy), with
matching `connectionId`, from the pinned origin. -/
def falsyHandshakeMsg : WireMsg :=
  ⟨some "sanity/channels", some "presentation", some "overlays",
    some "handshake/syn-ack", .str "abc", some "m9", .undefined⟩

/-- The falsy-payload handshake event. -/
def falsyHandshakeEvent : JsMessageEvent :=
  ⟨"https://studio.example", some 1, .obj falsyHandshakeMsg⟩

/-- Counterexample to C8 as stated: the application handler is invoked
for a handshake-typed envelope.  A handshake-acknowledge with a missing
(falsy) payload, matching session id and pinned origin falls through to
the application branch: the handler receives the handshake type and a
response is posted. -/
theorem claim8_counterexample :
    isHandshakeMessage falsyHandshakeMsg.type = true ∧
    (handleEvents cfgEx chEstablished
        falsyHandshakeEvent).effects.eventCalls =
      [(some "handshake/syn-ack", .undefined)] := by
  decide

/-- Claim C8 (amended): an accepted application-typed envelope — valid,
addressed here, session id and origin matching, type neither handshake
nor internal — invokes the application handler exactly once with its type
and payload and is acknowledged with a channel/response envelope
referencing the original message id; the handler is never invoked for
internal-typed envelopes or for handshake-typed envelopes carrying a
truthy payload (a handshake-typed envelope with a falsy payload and
matching session id and origin is, however, dispatched to the handler
like an application message). -/
theorem claim8_app_dispatch (cfg : ChannelsNodeOptions)
    (ch ch2 : ChannelsNodeChannel) (e e2 : JsMessageEvent) (m m2 : WireMsg)
    (cid o : String) (s : Nat)
    (hid : ch.id = .str cid) (hcid0 : cid ≠ "")
    (hor : ch.origin = some o) (ho0 : o ≠ "")
    (heo : e.origin = o)
    (hes : e.source = some s)
    (hdata : e.data = .obj m)
    (hdom : m.domain = some "sanity/channels")
    (hto : m.toId = some cfg.id)
    (hfrom : m.fromId = some cfg.connectTo)
    (hmcid : m.connectionId = .str cid)
    (hh : isHandshakeMessage m.type = false)
    (hi : isInternalMessage m.type = false)
    (hleg : m.type ≠ some "visual-editing/handshake")
    (hdata2 : e2.data = .obj m2)
    (hb : (isHandshakeMessage m2.type = true ∧ m2.data.truthy = true) ∨
      isInternalMessage m2.type = true) :
    (handleEvents cfg ch e).effects.eventCalls = [(m.type, m.data)] ∧
    (handleEvents cfg ch e).effects.out =
      [⟨.str cid, .obj .undefined m.id, "sanity/channels", cfg.id,
        cfg.connectTo, "channel/response", o, s⟩] ∧
    (handleEvents cfg ch e).channel = { ch with source := some s } ∧
    (handleEvents cfg ch2 e2).effects.eventCalls = [] := by
  have hnr : m.type ≠ some "channel/response" := by
    intro hcon; rw [isInternalMessage, hcon] at hi; simp at hi
  have hnd : m.type ≠ some "channel/disconnect" := by
    intro hcon; rw [isInternalMessage, hcon] at hi; simp at hi
  have hv : validObj cfg m := ⟨hdom, hto, hfrom, hnr⟩
  obtain ⟨eo, es, ed⟩ := e
  obtain ⟨cb, ci, co, cs, cst⟩ := ch
  have hed : ed = .obj m := hdata
  have hess : es = some s := hes
  have hci : ci = .str cid := hid
  have hco : co = some o := hor
  subst hed hess hci hco
  have heo2 : eo = o := heo
  rw [heo2]
  have hrunA : handleEvents cfg ⟨cb, .str cid, some o, cs, cst⟩
      ⟨o, some s, .obj m⟩ =
      ⟨⟨cb, .str cid, some o, some s, cst⟩,
        ⟨[⟨.str cid, .obj .undefined m.id, "sanity/channels", cfg.id,
          cfg.connectTo, "channel/response", o, s⟩], [],
          [(m.type, m.data)]⟩, false⟩ := by
    unfold handleEvents
    rw [if_neg (show ¬ isLegacyHandshakeMessage ⟨o, some s, .obj m⟩ = true by
      simp [isLegacyHandshakeMessage, hleg])]
    rw [show isValidMessageEvent cfg ⟨o, some s, .obj m⟩ = .ok true by
      simp [isValidMessageEvent, hv]]
    dsimp only
    rw [if_neg (show ¬ (originTruthy (some o) = true ∧
        some o ≠ some o) by simp)]
    have hjs : jsEq m.connectionId (JsNullable.str cid) = true := by
      rw [hmcid]; simp [jsEq]
    have hhs : ¬ (isHandshakeMessage m.type = true ∧
        m.data.truthy = true) := by
      rw [hh]; simp
    have hsendr : ∀ cc : ChannelsNodeChannel, cc.id = .str cid →
        cc.origin = some o → cc.source = some s →
        send cfg cc "channel/response" (.obj .undefined m.id) =
          (cc, [⟨.str cid, .obj .undefined m.id, "sanity/channels", cfg.id,
            cfg.connectTo, "channel/response", o, s⟩]) := by
      intro cc h1 h2 h3
      unfold send
      rw [if_neg (show ¬ (¬ isHandshakeMessage (some "channel/response") =
          true ∧ ¬ isInternalMessage (some "channel/response") = true ∧
          (cc.status = .connecting ∨ cc.status = .reconnecting)) by
        simp [isInternalMessage])]
      rw [if_pos (show cc.id.truthy = true ∧ originTruthy cc.origin = true ∧
          cc.source.isSome = true from
        ⟨by rw [h1]; simp [JsNullable.truthy, hcid0],
          by rw [h2]; simp [originTruthy, ho0], by rw [h3]; rfl⟩)]
      rw [show mkProtocolMsg cfg cc "channel/response" (.obj .undefined m.id) =
          ⟨.str cid, .obj .undefined m.id, "sanity/channels", cfg.id,
            cfg.connectTo, "channel/response", o, s⟩ by
        unfold mkProtocolMsg
        rw [h1, h2, h3]
        rfl]
    by_cases hcs : cs = some s
    · subst hcs
      rw [if_neg (show ¬ ((some s : Option Nat).isSome = true ∧
          some s ≠ some s) by simp)]
      rw [if_neg hhs]
      rw [if_pos (show jsEq m.connectionId (JsNullable.str cid) = true ∧
          some o = some o from ⟨hjs, rfl⟩)]
      rw [if_neg hnd]
      rw [hsendr ⟨cb, .str cid, some o, some s, cst⟩ rfl rfl rfl]
    · rw [if_pos (show (some s : Option Nat).isSome = true ∧
          cs ≠ some s from ⟨rfl, hcs⟩)]
      rw [if_neg hhs]
      rw [if_pos (show jsEq m.connectionId (JsNullable.str cid) = true ∧
          some o = some o from ⟨hjs, rfl⟩)]
      rw [if_neg hnd]
      rw [hsendr ⟨cb, .str cid, some o, some s, cst⟩ rfl rfl rfl]
  rw [hrunA]
  refine ⟨rfl, rfl, rfl, ?_⟩
  rcases handler_call_spec cfg ch2 e2 with hB | ⟨m2x, hd2x, -, hvx, hhsx, hdcx, -, -⟩
  · exact hB
  · have hm : m2 = m2x := by
      have h2 := hdata2.symm.trans hd2x
      injection h2
    subst hm
    exfalso
    rcases hb with hpair | hint
    · exact hhsx ⟨hpair.1, hpair.2⟩
    · have hor2 : m2.type = some "channel/response" ∨
          m2.type = some "channel/disconnect" := by
        simpa [isInternalMessage] using hint
      rcases hor2 with h | h
      · exact hvx.2.2.2 h
      · exact hdcx h

/-- An accepted application envelope on the established channel. -/
def appMsgW : WireMsg :=
  ⟨some "sanity/channels", some "presentation", some "overlays",
    some "app/event", .str "abc", some "m10", .payload "x"⟩

/-- The accepted application event. -/
def appEventW : JsMessageEvent :=
  ⟨"https://studio.example", some 1, .obj appMsgW⟩

/-- Witness for C8 (amended): the handler fires once for a concrete
accepted application envelope, a response referencing its message id is
posted, and a truthy-payload handshake envelope yields no handler call. -/
theorem claim8_app_dispatch_witness :
    (handleEvents cfgEx chEstablished appEventW).effects.eventCalls =
      [(some "app/event", .payload "x")] ∧
    (handleEvents cfgEx chEstablished appEventW).effects.out =
      [⟨.str "abc", .obj .undefined (some "m10"), "sanity/channels",
        "overlays", "presentation", "channel/response",
        "https://studio.example", 1⟩] ∧
    (handleEvents cfgEx chEstablished appEventW).channel =
      { chEstablished with source := some 1 } ∧
    (handleEvents cfgEx chEstablished ackEventW).effects.eventCalls = [] :=
  claim8_app_dispatch cfgEx chEstablished chEstablished appEventW ackEventW
    appMsgW ackMsgW "abc" "https://studio.example" 1
    rfl (by decide) rfl (by decide) rfl rfl rfl rfl rfl rfl rfl
    (by decide) (by decide) (by decide) rfl (Or.inl ⟨by decide, by decide⟩)

/-- A valid application envelope arriving before any origin is pinned. -/
def preHandshakeMsg : WireMsg :=
  ⟨some "sanity/channels", some "presentation", some "overlays",
    some "app/other", .undefined, some "m11", .undefined⟩

/-- The pre-handshake event, from an arbitrary origin with source 7. -/
def preHandshakeEvent : JsMessageEvent :=
  ⟨"https://anyone.example", some 7, .obj preHandshakeMsg⟩

/-- Counterexample to C9 as stated: the peer sink is updated even before
the origin is pinned.  On the freshly created channel (no origin, no
source) a valid envelope from an arbitrary origin rebinds the source
reference. -/
theorem claim9_counterexample :
    initialChannel.origin = none ∧
    initialChannel.source = none ∧
    (handleEvents cfgEx initialChannel preHandshakeEvent).channel.source =
      some 7 := by
  decide

/-- Claim C9 (amended): the peer sink reference is left unchanged by any
inbound event from a non-matching origin once the origin is pinned, and
is updated to the sender source by any valid inbound event that passes
the origin gate (origin not yet pinned, or matching) and carries a
non-null source — including before origin pinning. -/
theorem claim9_source_update (cfg : ChannelsNodeOptions)
    (ch : ChannelsNodeChannel) (e : JsMessageEvent) (o : String)
    (ch2 : ChannelsNodeChannel) (e2 : JsMessageEvent) (m2 : WireMsg)
    (s : Nat)
    (hor : ch.origin = some o) (ho : o ≠ "") (hmis : e.origin ≠ o)
    (hdata2 : e2.data = .obj m2)
    (hv2 : validObj cfg m2)
    (hleg2 : m2.type ≠ some "visual-editing/handshake")
    (hgate2 : ch2.origin = none ∨ ch2.origin = some e2.origin)
    (hes2 : e2.source = some s) :
    (handleEvents cfg ch e).channel.source = ch.source ∧
    (handleEvents cfg ch2 e2).channel.source = some s := by
  constructor
  · rw [(handleEvents_wrong_origin cfg ch e o hor ho hmis).1]
  · exact handleEvents_source_update cfg ch2 e2 m2 s hdata2 hv2 hleg2
      hgate2 hes2

/-- Witness for C9 (amended): a wrong-origin event leaves the established
channel source unchanged, while a valid pre-handshake event rebinds the
fresh channel source to the sender. -/
theorem claim9_source_update_witness :
    (handleEvents cfgEx chEstablished wrongOriginEvent).channel.source =
      chEstablished.source ∧
    (handleEvents cfgEx initialChannel preHandshakeEvent).channel.source =
      some 7 :=
  claim9_source_update cfgEx chEstablished wrongOriginEvent
    "https://studio.example" initialChannel preHandshakeEvent
    preHandshakeMsg 7 rfl (by decide) (by decide) rfl (by decide)
    (by decide) (Or.inl rfl) rfl

end Channels
